import Mathlib

/-!
Verification development for the pymanifold microfluidic constraint
compiler (files src/pymanifold.py, src/translate.py, src/constants.py).

The repository holds two generations of the compiler:

* `src/pymanifold.py` — the self-contained pysmt generation: a `Schematic`
  class owning a networkx digraph, per-kind translation methods that append
  pysmt expressions to `self.exprs`, and the physical formula library
  (`calculate_droplet_volume`, `calculate_channel_resistance`, ...).
  Embedded below in namespace `PyM`.
* `src/translate.py` — the dreal generation: free functions
  `translate_node`, `translate_input`, `translate_output`,
  `translate_channel`, `translate_tjunc` that return lists of constraints
  and recurse through the graph via the `translation_strats` dispatch
  table.  Its helper module `algorithms` is not part of the sources; the
  helpers it uses are transcribed from their identically named
  counterparts in `src/pymanifold.py` where those exist, and otherwise
  modelled from the spec (each such definition is marked in its doc
  comment).  Embedded below in namespace `Tr`.

Modelling conventions:
* pysmt/dreal terms are the inductive `AExpr`; boolean atoms are
  `Constraint`.  Variable identity in the solvers is name identity; the
  underscore-joined name strings of the source are modelled by the
  structured `VarId` (entity identifier plus attribute name), which keeps
  the same identification.
* Python numbers are embedded as `ℚ` (all numeric literals in the source
  are decimal constants); `math.pi` is embedded as the real constant pi
  via the dedicated constructor `AExpr.pic`, and
  `math.cos(math.radians(0.5))**2` via `AExpr.critCos`.
* A Python attribute holding `False` (the sources use `False` as the
  unset marker) is `Option.none`; a stored number `v` is `some v`.
  Python truthiness of a stored value (`if attrs[k]:`) is
  `none ↦ false, some v ↦ (v ≠ 0)`.
* `raise` is `Except.error`; the graph-walking recursion of translate.py
  (which has no cycle guard in the source) is given an explicit fuel
  argument that every nested call decrements.
-/

/-- Identity of a solver variable. The sources build variable names as
underscore-joined strings (for example `Symbol(name+'_pressure')` and
`Symbol('_'.join([port_from, port_to, 'width']))`); `VarId` keeps the
entity identifier and the attribute name as separate fields, preserving
the one-variable-per-(entity, attribute) identification. -/
inductive VarId where
  | nAttr : String → String → VarId
  | eAttr : String → String → String → VarId
  | sym : String → VarId
deriving DecidableEq

mutual
/-- Arithmetic solver terms (pysmt and dreal expressions).  `plusL` is the
n-ary pysmt `Plus` over a list; `conjT` is the dreal `logical_and` applied
to arithmetic terms (as translate.py does for multi-predecessor nodes). -/
inductive AExpr where
  | var : VarId → AExpr
  | lit : ℚ → AExpr
  | pic : AExpr
  | critCos : AExpr
  | add : AExpr → AExpr → AExpr
  | sub : AExpr → AExpr → AExpr
  | mul : AExpr → AExpr → AExpr
  | div : AExpr → AExpr → AExpr
  | pow : AExpr → AExpr → AExpr
  | plusL : AListE → AExpr
  | conjT : AListE → AExpr
deriving DecidableEq
/-- Lists of `AExpr` (a separate inductive so that decidable equality can
be derived for the mutual pair). -/
inductive AListE where
  | nil : AListE
  | cons : AExpr → AListE → AListE
deriving DecidableEq
end

/-- Convert an ordinary list of terms into the child list of an n-ary
node. -/
def AListE.ofList : List AExpr → AListE
  | [] => .nil
  | a :: l => .cons a (AListE.ofList l)

/-- Atomic constraints appended to the constraint set: pysmt
`Equals/LE/LT/GE/GT` and the corresponding dreal comparisons. -/
inductive Constraint where
  | ceq : AExpr → AExpr → Constraint
  | cle : AExpr → AExpr → Constraint
  | clt : AExpr → AExpr → Constraint
  | cge : AExpr → AExpr → Constraint
  | cgt : AExpr → AExpr → Constraint
deriving DecidableEq

/-- A solver model: a real value for every variable name. -/
def Assignment : Type := VarId → ℝ

mutual
/-- Denotation of a term under an assignment.  `pow` uses the real power
`Real.rpow` (the exponents occurring in the sources are 2, 3, 0.5 and -1).
The ill-typed dreal `logical_and` over arithmetic terms (`conjT`) has no
arithmetic denotation in the source system either; it is given the dummy
value 0 here and no theorem below depends on that choice. -/
noncomputable def evalE (σ : Assignment) : AExpr → ℝ
  | .var v => σ v
  | .lit q => (q : ℝ)
  | .pic => Real.pi
  | .critCos => (Real.cos ((1/2) * Real.pi / 180)) ^ 2
  | .add a b => evalE σ a + evalE σ b
  | .sub a b => evalE σ a - evalE σ b
  | .mul a b => evalE σ a * evalE σ b
  | .div a b => evalE σ a / evalE σ b
  | .pow a b => evalE σ a ^ evalE σ b
  | .plusL l => evalL σ l
  | .conjT _ => 0
/-- Sum of the denotations of a child list (pysmt `Plus`). -/
noncomputable def evalL (σ : Assignment) : AListE → ℝ
  | .nil => 0
  | .cons a l => evalE σ a + evalL σ l
end

/-- Satisfaction of one atomic constraint. -/
def satC (σ : Assignment) : Constraint → Prop
  | .ceq a b => evalE σ a = evalE σ b
  | .cle a b => evalE σ a ≤ evalE σ b
  | .clt a b => evalE σ a < evalE σ b
  | .cge a b => evalE σ a ≥ evalE σ b
  | .cgt a b => evalE σ a > evalE σ b

/-- Satisfaction of a whole constraint set (the conjunction handed to the
oracle). -/
def satAll (σ : Assignment) (l : List Constraint) : Prop := ∀ c ∈ l, satC σ c

/-- A constraint set is satisfiable when some assignment meets every
member. -/
def Satisfiable (l : List Constraint) : Prop := ∃ σ : Assignment, satAll σ l

/-! ## Formula library

Terms transcribed from the formula methods of `src/pymanifold.py`
(these are the bodies that translate.py reaches through its missing
`algorithms` module where the names coincide). -/

/-- Droplet volume term, transcribed from
`Schematic.calculate_droplet_volume` (src/pymanifold.py lines 690-744).
Arguments: height, continuous/output width, dispersed width, rounding
variable epsilon, dispersed flow, continuous flow. -/
def calculate_droplet_volume (h w wIn epsilon qD qC : AExpr) : AExpr :=
  let q_gutter : AExpr := .lit (1/10)
  let v_fill_simple : AExpr :=
    .sub (.mul (.lit (3/8)) .pic)
         (.mul (.mul (.div .pic (.lit 2))
                     (.sub (.lit 1) (.div .pic (.lit 4))))
               (.div h w))
  let hw_parallel : AExpr := .div (.mul h w) (.add h w)
  let r_pinch : AExpr :=
    .add w
         (.add (.sub wIn (.sub hw_parallel epsilon))
               (.pow (.mul (.lit 2)
                           (.mul (.sub wIn hw_parallel)
                                 (.sub w hw_parallel)))
                     (.lit (1/2))))
  let r_fill : AExpr := w
  let alpha : AExpr :=
    .mul (.sub (.lit 1) (.div .pic (.lit 4)))
         (.mul (.pow (.sub (.lit 1) q_gutter) (.lit (-1)))
               (.add (.sub (.pow (.div r_pinch w) (.lit 2))
                           (.pow (.div r_fill w) (.lit 2)))
                     (.mul (.div .pic (.lit 4))
                           (.mul (.sub (.div r_pinch w) (.div r_fill w))
                                 (.div h w)))))
  .mul (.mul h (.mul w w)) (.add v_fill_simple (.mul alpha (.div qD qC)))

/-- Resistance term of a rectangular channel, transcribed from the second
component returned by `Schematic.calculate_channel_resistance`
(src/pymanifold.py lines 623-644). -/
def resistance_term (w h mu chL : AExpr) : AExpr :=
  .div (.mul (.lit 12) (.mul mu chL))
       (.mul w (.mul (.pow h (.lit 3))
                     (.sub (.lit 1) (.mul (.lit (63/100)) (.div h w)))))

/-- The per-node solver variable (`Symbol(name+'_pressure')` and so on;
node coordinate symbols use the suffixes `_X` and `_Y`). -/
def nVar (n attr : String) : AExpr := .var (.nAttr n attr)

/-- The per-edge solver variable
(`Symbol('_'.join([port_from, port_to, attr]))`). -/
def eVar (e : String × String) (attr : String) : AExpr := .var (.eAttr e.1 e.2 attr)

/-- Python truthiness branch on a stored optional bound: `if attrs[k]:`
is false for the stored `False` marker and for a stored 0. -/
def fixedOr (stored : Option ℚ) (fixed : ℚ → Constraint) (free : Constraint) :
    List Constraint :=
  match stored with
  | some v => if v ≠ 0 then [fixed v] else [free]
  | none => [free]

/-- Output pressure of a channel in terms of the per-entity variables,
as in `Schematic.channel_output_pressure` (src/pymanifold.py lines
611-621): `P_in - R * Q` over the inlet node pressure and the channel
resistance and flow rate. -/
def channel_output_pressure (e : String × String) : AExpr :=
  .sub (nVar e.1 "pressure") (.mul (eVar e "res") (eVar e "flow_rate"))

/-- Pythagorean length constraint, transcribed from
`Schematic.pythagorean_length` (src/pymanifold.py lines 648-663). -/
def pythagorean_length (e : String × String) : Constraint :=
  .ceq (.add (.pow (.sub (nVar e.1 "X") (nVar e.2 "X")) (.lit 2))
             (.pow (.sub (nVar e.1 "Y") (nVar e.2 "Y")) (.lit 2)))
       (.pow (eVar e "length") (.lit 2))

/-- Squared-cosine term between the two channel vectors at `n2`,
transcribed from `Schematic.cosine_law_crit_angle`
(src/pymanifold.py lines 665-688). -/
def cosine_law_crit_angle (n1 n2 n3 : String) : AExpr :=
  let aX := AExpr.sub (nVar n1 "X") (nVar n2 "X")
  let aY := AExpr.sub (nVar n1 "Y") (nVar n2 "Y")
  let bX := AExpr.sub (nVar n3 "X") (nVar n2 "X")
  let bY := AExpr.sub (nVar n3 "Y") (nVar n2 "Y")
  .div (.pow (.add (.mul aX bX) (.mul aY bY)) (.lit 2))
       (.mul (.add (.mul aX aX) (.mul aY aY))
             (.add (.mul bX bX) (.mul bY bY)))

/-- Zero signed-triangle-area colinearity constraint, transcribed from
the inline straight-line constraint of `Schematic.translate_tjunc`
(src/pymanifold.py lines 556-567); translate.py reaches the same
constraint through `algorithms.channels_in_straight_line` of its missing
helper module, which the spec describes identically. -/
def channels_in_straight_line (n1 n2 n3 : String) : Constraint :=
  .ceq (.lit 0)
       (.div (.add (.mul (nVar n1 "X") (.sub (nVar n2 "Y") (nVar n3 "Y")))
                   (.add (.mul (nVar n2 "X") (.sub (nVar n3 "Y") (nVar n1 "Y")))
                         (.mul (nVar n3 "X") (.sub (nVar n1 "Y") (nVar n2 "Y")))))
             (.lit 2))

/-- The pairwise combination applied at multi-predecessor nodes:
`[a + b for a, b in zip(lst, lst[1:])]`. -/
def pairwise_sums (l : List AExpr) : List AExpr :=
  (l.zip l.tail).map (fun ab => .add ab.1 ab.2)

/-- First component returned by `calculate_channel_resistance`
(src/pymanifold.py line 635): the validity precondition `h < w`. -/
def resistance_validity (e : String × String) : Constraint :=
  .clt (eVar e "height") (eVar e "width")

/-- The shared rounding variable of every T-junction translation:
`Symbol('epsilon', REAL)` in pymanifold.py and `Variable('epsilon')` in
translate.py — the name is the fixed literal string, carrying no junction
identifier, so all T-junctions of a graph share this one variable. -/
def epsilonVar : AExpr := .var (.sym "epsilon")

/-! ## Closed forms written from the words of the spec

These two definitions follow the formulas printed in the spec (sections
4.3 and the droplet volume block), to be compared with the terms the code
builds. -/

/-- Droplet volume closed form as the spec states it, with the gutter
flow constant fixed at 0.1. -/
noncomputable def specDropletVolume (h w wIn eps qD qC : ℝ) : ℝ :=
  let v_fill : ℝ := 3*Real.pi/8 - (Real.pi/2)*(1 - Real.pi/4)*(h/w)
  let hw_parallel : ℝ := h*w/(h + w)
  let r_pinch : ℝ :=
    w + (wIn - (hw_parallel - eps))
      + Real.sqrt (2*(wIn - hw_parallel)*(w - hw_parallel))
  let r_fill : ℝ := w
  let alpha : ℝ :=
    (1 - Real.pi/4)/(1 - 1/10)
      * ((r_pinch/w)^2 - (r_fill/w)^2 + (Real.pi/4)*(r_pinch/w - r_fill/w)*(h/w))
  h*w^2*(v_fill + alpha*(qD/qC))

/-- Hydraulic resistance closed form as the spec states it:
`R = 12·mu·L / (w·h³·(1 − 0.63·h/w))`. -/
noncomputable def specResistance (mu L w h : ℝ) : ℝ :=
  12*mu*L / (w*h^3*(1 - (63/100)*(h/w)))

/-! ## Embedding of src/translate.py

The graph the translate.py functions walk is a networkx digraph whose
node and edge attribute dictionaries are built elsewhere (the builder
module of this generation is not among the sources; per the spec, every
entity attribute is a pair of a symbolic variable and an optional
user-fixed value, unset attributes being stored as the falsy marker).
Nodes carry a dispatch kind and the optional fixed values; edges carry a
dispatch kind, a phase tag and the optional fixed bounds. -/

namespace Tr

/-- Node attribute record: dispatch kind plus optional user-fixed values
(`none` is the stored `False` marker). -/
structure NodeAttrs where
  kind : String
  min_pressure : Option ℚ
  min_flow_rate : Option ℚ
  min_viscosity : Option ℚ
  min_density : Option ℚ
  min_x : Option ℚ
  min_y : Option ℚ
deriving DecidableEq

/-- Edge (channel) attribute record: dispatch kind, phase tag and the
optional fixed bounds read by translate_channel. -/
structure EdgeAttrs where
  kind : String
  phase : String
  min_length : Option ℚ
  min_width : Option ℚ
  min_height : Option ℚ
  min_resolution : Option ℚ
  min_depth : Option ℚ
deriving DecidableEq

/-- The digraph: association lists of node and edge attribute records,
in insertion order (Python dictionaries iterate in insertion order). -/
structure Graph where
  nodes : List (String × NodeAttrs)
  edges : List ((String × String) × EdgeAttrs)
deriving DecidableEq

/-- Attribute-dictionary lookup for a node (`dg.nodes[name]`). -/
def lookupNode (g : Graph) (n : String) : Option NodeAttrs :=
  (g.nodes.find? (fun p => p.1 == n)).map Prod.snd

/-- Lookup of an edge key in an edge association list. -/
def findEdge (l : List ((String × String) × EdgeAttrs)) (e : String × String) :
    Option EdgeAttrs :=
  (l.find? (fun p => p.1 == e)).map Prod.snd

/-- Attribute-dictionary lookup for an edge (`dg.edges[name]`). -/
def lookupEdge (g : Graph) (e : String × String) : Option EdgeAttrs :=
  findEdge g.edges e

/-- Predecessor node names (`dg.pred[name]`), in edge insertion order. -/
def preds (g : Graph) (n : String) : List String :=
  (g.edges.filter (fun p => p.1.2 == n)).map (fun p => p.1.1)

/-- Successor node names (`dg.succ[name]` / `dg.neighbors(name)`). -/
def succs (g : Graph) (n : String) : List String :=
  (g.edges.filter (fun p => p.1.1 == n)).map (fun p => p.1.2)

/-- Outgoing edge keys of a node. -/
def succEdges (g : Graph) (n : String) : List (String × String) :=
  (g.edges.filter (fun p => p.1.1 == n)).map Prod.fst

/-- Incoming edge keys of a node. -/
def predEdges (g : Graph) (n : String) : List (String × String) :=
  (g.edges.filter (fun p => p.1.2 == n)).map Prod.fst

/-- The source calls `dg.size(name)` at every connection check.  networkx
`DiGraph.size(weight)` takes a *weight attribute key*, not a node: with a
string argument it sums `data.get(weight, 1)` over **all** edges of the
graph, and since no edge attribute dictionary uses a node name as a key,
every edge contributes 1 — so the call returns the total number of edges
in the whole graph, not the degree of `name`. -/
def size (g : Graph) (_name : String) : Nat := g.edges.length

/-- Modelled from the spec: `algorithms.calculate_port_flow_rate` is in
the missing `algorithms` module and translate.py appends its result as a
constraint; per the spec the unfixed input flow rate is derived as total
outgoing cross section area times `sqrt(2*pressure/density)`, and the
pymanifold.py counterpart (lines 746-766) sums `length * width` over the
outgoing channels with the n-ary `Plus`. -/
def calculate_port_flow_rate (g : Graph) (n : String) : Constraint :=
  let areas := (succEdges g n).map (fun e => AExpr.mul (eVar e "length") (eVar e "width"))
  .ceq (nVar n "flow_rate")
       (.mul (.plusL (.ofList areas))
             (.pow (.div (.mul (.lit 2) (nVar n "pressure")) (nVar n "density"))
                   (.lit (1/2))))

/-- The phase scan of translate_tjunc: the source iterates over
`nx.get_edge_attributes(dg, 'phase')`, that is over **every** edge of the
graph, reassigning the continuous/dispersed names on each matching edge
(the last match wins) and appending the width/height equalities as it
goes; an unrecognized phase raises, and the attribute lookups on the
reconstructed channel key `(edge_source, junction)` raise when no such
edge exists.  Returns (continuous node, dispersed node, constraints).
The first argument is the full edge dictionary of the graph (used for
the channel-key lookups), the last the remaining edges to scan. -/
def phases_scan (alledges : List ((String × String) × EdgeAttrs))
    (junction : String) (outChan : String × String) :
    List ((String × String) × EdgeAttrs) →
    Except String (Option String × Option String × List Constraint)
  | [] => .ok (none, none, [])
  | (e, a) :: rest =>
    if a.phase == "continuous" then
      match findEdge alledges (e.1, junction) with
      | none => .error "KeyError: continuous channel key not an edge"
      | some _ => do
        let (c, d, l) ← phases_scan alledges junction outChan rest
        let here := [Constraint.ceq (eVar (e.1, junction) "width") (eVar outChan "width"),
                     Constraint.ceq (eVar (e.1, junction) "height") (eVar outChan "height")]
        .ok (match c with | some x => some x | none => some e.1, d, here ++ l)
    else if a.phase == "dispersed" then
      match findEdge alledges (e.1, junction) with
      | none => .error "KeyError: dispersed channel key not an edge"
      | some _ => do
        let (c, d, l) ← phases_scan alledges junction outChan rest
        let here := [Constraint.ceq (eVar (e.1, junction) "height") (eVar outChan "height")]
        .ok (c, (match d with | some x => some x | none => some e.1), here ++ l)
    else if a.phase == "output" then
      phases_scan alledges junction outChan rest
    else
      .error "Invalid phase for T-junction"

/-- The pressure combination translate_node emits for its predecessors
(src/translate.py lines 30-46): a direct equality to the single inbound
output pressure, or the `logical_and` of the pairwise sums equated to
the pressure variable when there are two or more. -/
def node_pressure_combo (g : Graph) (name : String) : List Constraint :=
  let output_pressures := (preds g name).map (fun p => channel_output_pressure (p, name))
  match preds g name, output_pressures with
  | [_], q :: _ => [.ceq (nVar name "pressure") q]
  | _ :: _ :: _, l => [.ceq (nVar name "pressure") (.conjT (.ofList (pairwise_sums l)))]
  | _, _ => []

/-- All constraints translate_node emits before recursing into the
successor channels (src/translate.py lines 29-93). -/
def node_local_exprs (g : Graph) (name : String) (a : NodeAttrs) : List Constraint :=
  let pos_exprs : List Constraint :=
    fixedOr a.min_x (fun v => .ceq (nVar name "X") (.lit v)) (.cge (nVar name "X") (.lit 0))
    ++ fixedOr a.min_y (fun v => .ceq (nVar name "Y") (.lit v)) (.cge (nVar name "Y") (.lit 0))
  let attr_exprs : List Constraint :=
    fixedOr a.min_pressure (fun v => .ceq (nVar name "pressure") (.lit v))
      (.cgt (nVar name "pressure") (.lit 0))
    ++ fixedOr a.min_flow_rate (fun v => .ceq (nVar name "flow_rate") (.lit v))
      (.cgt (nVar name "flow_rate") (.lit 0))
    ++ fixedOr a.min_viscosity (fun v => .ceq (nVar name "viscosity") (.lit v))
      (.cgt (nVar name "viscosity") (.lit 0))
    ++ fixedOr a.min_density (fun v => .ceq (nVar name "density") (.lit v))
      (.cgt (nVar name "density") (.lit 0))
  let densities := (preds g name).map (fun p => nVar p "density")
  let density_prop : List Constraint :=
    match preds g name with
    | [] => []
    | p :: _ =>
      if densities.tail = densities.dropLast
      then [.ceq (nVar name "density") (nVar p "density")]
      else []
  node_pressure_combo g name ++ pos_exprs ++ attr_exprs ++ density_prop

/-- All constraints translate_channel emits before recursing into the
downstream node (src/translate.py lines 186-246). -/
def channel_head_exprs (a : EdgeAttrs) (e : String × String) : List Constraint :=
  [pythagorean_length e]
  ++ fixedOr a.min_length (fun v => .ceq (eVar e "length") (.lit v))
    (.cgt (eVar e "length") (.lit 0))
  ++ fixedOr a.min_width (fun v => .ceq (eVar e "width") (.lit v))
    (.cgt (eVar e "width") (.lit 0))
  ++ fixedOr a.min_resolution (fun v => .clt (eVar e "width") (.lit v))
    (.clt (eVar e "width") (.lit 1))
  ++ fixedOr a.min_height (fun v => .ceq (eVar e "height") (.lit v))
    (.cgt (eVar e "height") (.lit (1/1000000)))
  ++ fixedOr a.min_depth (fun v => .clt (eVar e "height") (.lit v))
    (.clt (eVar e "height") (.lit (1/1000)))
  ++ [.ceq (eVar e "viscosity") (nVar e.1 "viscosity"),
      .ceq (nVar e.2 "viscosity") (nVar e.1 "viscosity"),
      resistance_validity e,
      .ceq (eVar e "res")
        (resistance_term (eVar e "width") (eVar e "height")
          (eVar e "viscosity") (eVar e "length")),
      .cgt (eVar e "res") (.lit 0),
      .ceq (eVar e "flow_rate") (nVar e.1 "flow_rate")]

/-- All constraints translate_tjunc emits after the phase scan and
before recursing into the output node (src/translate.py lines 316-388),
for junction `name` with continuous node `cn`, dispersed node `dn` and
output node `on_`. -/
def tjunc_local_exprs (cn dn name on_ : String) : List Constraint :=
  [.cge epsilonVar (.lit 0),
   .ceq (nVar cn "viscosity") (nVar on_ "viscosity"),
   .ceq (.add (eVar (cn, name) "flow_rate") (eVar (dn, name) "flow_rate"))
        (eVar (name, on_) "flow_rate"),
   channels_in_straight_line cn name on_,
   .ceq (eVar (name, on_) "Dvol")
     (calculate_droplet_volume
       (eVar (name, on_) "height")
       (eVar (name, on_) "width")
       (eVar (dn, name) "width")
       epsilonVar
       (nVar dn "flow_rate")
       (nVar cn "flow_rate")),
   .cle .critCos (cosine_law_crit_angle cn name dn),
   .cle .critCos (cosine_law_crit_angle cn name on_),
   .cle .critCos (cosine_law_crit_angle on_ name dn)]

mutual

/-- Embedding of `translate_node` (src/translate.py lines 22-98). -/
def translate_node : Nat → Graph → String → Except String (List Constraint)
  | 0, _, _ => .error "recursion limit"
  | fuel+1, g, name =>
    match lookupNode g name with
    | none => .error "KeyError: node not in graph"
    | some a => do
      let rec_exprs ← translate_succ_channels fuel g (succEdges g name)
      .ok (node_local_exprs g name a ++ rec_exprs)

/-- Loop tail of translate_node: dispatch every successor channel through
the strategy table and append the results in order. -/
def translate_succ_channels : Nat → Graph → List (String × String) →
    Except String (List Constraint)
  | _, _, [] => .ok []
  | 0, _, _ :: _ => .error "recursion limit"
  | fuel+1, g, e :: rest => do
    let l ← edge_dispatch fuel g e
    let l2 ← translate_succ_channels fuel g rest
    .ok (l ++ l2)

/-- Dispatch of `translation_strats[retrieve(dg, edge, 'kind')]`: the
only table keys that name channel strategies are `channel` and
`rectangle` (both mapped to translate_channel); any other stored kind is
a failure in the source as well (a missing table key, or a node strategy
applied to an edge tuple, which immediately raises on its lookups). -/
def edge_dispatch : Nat → Graph → (String × String) → Except String (List Constraint)
  | 0, _, _ => .error "recursion limit"
  | fuel+1, g, e =>
    match lookupEdge g e with
    | none => .error "KeyError: edge not in graph"
    | some a =>
      if a.kind == "channel" || a.kind == "rectangle" then translate_channel fuel g e
      else .error "KeyError: no channel strategy for kind"

/-- Dispatch of `translation_strats[retrieve(dg, node, 'kind')]` for node
names.  The `ep_cross` entry of the table points at a function whose body
is not even importable in the source (it has an indentation error), so it
is mapped to a failure. -/
def node_dispatch : Nat → Graph → String → Except String (List Constraint)
  | 0, _, _ => .error "recursion limit"
  | fuel+1, g, name =>
    match lookupNode g name with
    | none => .error "KeyError: node not in graph"
    | some a =>
      if a.kind == "input" then translate_input fuel g name
      else if a.kind == "output" then translate_output fuel g name
      else if a.kind == "node" then translate_node fuel g name
      else if a.kind == "tjunc" then translate_tjunc fuel g name
      else .error "KeyError: no node strategy for kind"

/-- Embedding of `translate_input` (src/translate.py lines 101-130). -/
def translate_input : Nat → Graph → String → Except String (List Constraint)
  | 0, _, _ => .error "recursion limit"
  | fuel+1, g, name =>
    if size g name ≤ 0 then .error "Port must have 1 or more connections"
    else if (preds g name).length ≠ 0 then .error "Cannot have channels into input port"
    else do
      let node_exprs ← translate_node fuel g name
      match lookupNode g name with
      | none => .error "KeyError: node not in graph"
      | some a =>
        let flow_exprs : List Constraint :=
          match a.min_flow_rate with
          | some v => if v ≠ 0 then [] else [calculate_port_flow_rate g name]
          | none => [calculate_port_flow_rate g name]
        .ok (node_exprs ++ flow_exprs ++ [.clt (nVar name "flow_rate") (.lit 100)])

/-- Embedding of `translate_output` (src/translate.py lines 133-167). -/
def translate_output : Nat → Graph → String → Except String (List Constraint)
  | 0, _, _ => .error "recursion limit"
  | fuel+1, g, name =>
    if size g name ≤ 0 then .error "Port must have 1 or more connections"
    else if (succs g name).length ≠ 0 then .error "Cannot have channels out of output port"
    else do
      let node_exprs ← translate_node fuel g name
      match lookupNode g name with
      | none => .error "KeyError: node not in graph"
      | some a =>
        let flow_exprs : List Constraint :=
          match a.min_flow_rate with
          | some v =>
            if v ≠ 0 then [] else output_flow_combo g name
          | none => output_flow_combo g name
        .ok (node_exprs ++ flow_exprs)

/-- The incoming-flow combination of translate_output: a direct equality
for a single incoming channel, otherwise the dreal `logical_and` of the
pairwise sums equated to the flow variable. -/
def output_flow_combo (g : Graph) (name : String) : List Constraint :=
  match (predEdges g name).map (fun e => eVar e "flow_rate") with
  | [q] => [.ceq (nVar name "flow_rate") q]
  | l => [.ceq (nVar name "flow_rate") (.conjT (.ofList (pairwise_sums l)))]

/-- Embedding of `translate_channel` (src/translate.py lines 171-253). -/
def translate_channel : Nat → Graph → (String × String) → Except String (List Constraint)
  | 0, _, _ => .error "recursion limit"
  | fuel+1, g, e =>
    match lookupEdge g e with
    | none => .error "KeyError: channel was not defined"
    | some a => do
      let rec_exprs ← node_dispatch fuel g e.2
      .ok (channel_head_exprs a e ++ rec_exprs)

/-- Embedding of `translate_tjunc` (src/translate.py lines 256-394), at
the default critical crossing angle 0.5 used by the dispatch table. -/
def translate_tjunc : Nat → Graph → String → Except String (List Constraint)
  | 0, _, _ => .error "recursion limit"
  | fuel+1, g, name =>
    if size g name ≠ 3 then .error "T-junction must have 3 connections"
    else do
      -- the source calls translate_node without using its returned list
      let _ ← translate_node fuel g name
      match succs g name with
      | [] => .error "IndexError: T-junction has no successor"
      | output_node_name :: _ => do
        let output_channel_name := (name, output_node_name)
        let scan ← phases_scan g.edges name output_channel_name g.edges
        match scan with
        | (some continuous_node_name, some dispersed_node_name, phase_exprs) =>
          let rec_exprs ← node_dispatch fuel g output_node_name
          .ok (phase_exprs
               ++ tjunc_local_exprs continuous_node_name dispersed_node_name
                    name output_node_name
               ++ rec_exprs)
        | _ => .error "KeyError: continuous or dispersed channel missing"

end

end Tr

/-! ## Embedding of src/pymanifold.py

The pysmt generation: a `Schematic` object holds the digraph and the
growing expression list `self.exprs`; the constructors `channel`, `port`
and `node` validate their arguments and store attribute dictionaries, and
the translate methods append expressions (and, in `translate_channel`,
overwrite two stored attributes).  Only the stored node pressure and the
stored channel resistance are ever reassigned after construction, so
those two attributes are kept as stored terms in the records below; every
other symbol attribute stays the variable built at construction and is
referenced through `nVar`/`eVar`. -/

namespace PyM

/-- The four attributes that only `port()` stores (`node()` products have
no such dictionary keys, which is why they are grouped behind an option:
reading them on a plain node raises in Python). -/
structure PortAttrs where
  min_viscosity : Option ℚ
  min_pressure : Option ℚ
  min_flow_rate : Option ℚ
  min_density : Option ℚ
deriving DecidableEq

/-- Stored node attribute dictionary. -/
structure PMNode where
  kind : String
  pressure : AExpr
  portAttrs : Option PortAttrs
  min_x : Option ℚ
  min_y : Option ℚ
deriving DecidableEq

/-- Stored channel attribute dictionary. -/
structure PMEdge where
  shape : String
  phase : String
  resistance : AExpr
  min_length : Option ℚ
  min_width : Option ℚ
  min_height : Option ℚ
  min_channel_length : Option ℚ
deriving DecidableEq

/-- The `Schematic` object: chip bounds `dim = [X_min, Y_min, X_max,
Y_max]`, the accumulated `self.exprs`, and the digraph. -/
structure Schematic where
  dim : ℚ × ℚ × ℚ × ℚ
  exprs : List Constraint
  nodes : List (String × PMNode)
  edges : List ((String × String) × PMEdge)
deriving DecidableEq

/-- Dictionary lookup `self.dg.nodes[name]`. -/
def lookupNode (s : Schematic) (n : String) : Option PMNode :=
  (s.nodes.find? (fun p => p.1 == n)).map Prod.snd

/-- Lookup of an edge key in an edge association list. -/
def findEdge (l : List ((String × String) × PMEdge)) (e : String × String) :
    Option PMEdge :=
  (l.find? (fun p => p.1 == e)).map Prod.snd

/-- Dictionary lookup `self.dg.edges[name]`. -/
def lookupEdge (s : Schematic) (e : String × String) : Option PMEdge :=
  findEdge s.edges e

/-- Successor node names (`self.dg.neighbors(name)` / `self.dg.succ`). -/
def succs (s : Schematic) (n : String) : List String :=
  (s.edges.filter (fun p => p.1.1 == n)).map (fun p => p.1.2)

/-- Outgoing edge keys of a node. -/
def succEdges (s : Schematic) (n : String) : List (String × String) :=
  (s.edges.filter (fun p => p.1.1 == n)).map Prod.fst

/-- Append expressions to `self.exprs`. -/
def appendE (s : Schematic) (l : List Constraint) : Schematic :=
  { s with exprs := s.exprs ++ l }

/-- Overwrite the stored pressure attribute of a node
(`port_out['pressure'] = output_pressure`, line 418). -/
def setNodePressure (s : Schematic) (n : String) (p : AExpr) : Schematic :=
  { s with nodes :=
      s.nodes.map (fun q => if q.1 == n then (q.1, { q.2 with pressure := p }) else q) }

/-- Overwrite the stored resistance attribute of a channel
(`named_channel['resistance'] = resistance`, line 402). -/
def setEdgeResistance (s : Schematic) (e : String × String) (r : AExpr) : Schematic :=
  { s with edges :=
      s.edges.map (fun q => if q.1 == e then (q.1, { q.2 with resistance := r }) else q) }

/-- The storage coercion of the `channel` constructor (lines 115-121):
every attribute equal to 0 is stored as the `False` marker. -/
def chanStore (v : ℚ) : Option ℚ := if v = 0 then none else some v

/-- The storage coercion of the `port` and `node` constructors (lines
186-192 and 236-242): every attribute equal to the -1 default is stored
as the `False` marker. -/
def portStore (v : ℚ) : Option ℚ := if v = -1 then none else some v

/-- Keys of `self.translation_strats` in this generation. -/
def strat_kinds : List String := ["input", "output", "t-junction", "rectangle"]

/-- Embedding of the `channel` constructor (src/pymanifold.py lines
41-122).  The source validates the shape with `shape not in
valid_shapes` where `valid_shapes` is the plain string "rectangle" (a
substring test); the only shape any caller passes is the default
"rectangle" itself, for which the membership test and the equality test
below agree.  A parameter below -1 aborts (the source raises a TypeError
while formatting its own error message, which still aborts construction). -/
def channel (s : Schematic) (port_from port_to : String)
    (min_length min_width min_height min_channel_length : ℚ)
    (shape phase : String) : Except String Schematic :=
  if ¬(shape == "rectangle") then .error "Valid channel shapes are: rectangle"
  else if ¬(s.nodes.any (fun p => p.1 == port_from)) then
    .error "port_from node does not exist"
  else if ¬(s.nodes.any (fun p => p.1 == port_to)) then
    .error "port_to node does not exist"
  else if min_length < -1 ∨ min_width < -1 ∨ min_height < -1 then
    .error "TypeError while raising: channel parameter must be at least 0"
  else if s.edges.any (fun p => p.1 == (port_from, port_to)) then
    .error "Channel already exists between these nodes"
  else
    .ok { s with edges := s.edges ++
      [((port_from, port_to),
        ⟨shape, phase, eVar (port_from, port_to) "res",
         chanStore min_length, chanStore min_width, chanStore min_height,
         chanStore min_channel_length⟩)] }

/-- Embedding of the `port` constructor (src/pymanifold.py lines
129-192), argument order `(name, kind, min_pressure, min_flow_rate, x, y,
density, min_viscosity)`.  The negative check of the source is `< -1`,
not `< 0`. -/
def port (s : Schematic) (name kind : String)
    (min_pressure min_flow_rate x y density min_viscosity : ℚ) :
    Except String Schematic :=
  if s.nodes.any (fun p => p.1 == name) then .error "Must provide a unique name"
  else if ¬(strat_kinds.contains kind) then .error "kind must be a translation strategy"
  else if x < -1 ∨ y < -1 ∨ min_pressure < -1 ∨ min_flow_rate < -1
      ∨ min_viscosity < -1 ∨ density < -1 then
    .error "port parameter must be at least 0"
  else
    .ok { s with nodes := s.nodes ++
      [(name,
        ⟨kind, nVar name "pressure",
         some ⟨portStore min_viscosity, portStore min_pressure,
               portStore min_flow_rate, portStore density⟩,
         portStore x, portStore y⟩)] }

/-- Embedding of the `node` constructor (src/pymanifold.py lines
194-242); it stores no `min_pressure`/`min_flow_rate`/`min_viscosity`/
`min_density` keys. -/
def node (s : Schematic) (name : String) (x y : ℚ) (kind : String) :
    Except String Schematic :=
  if s.nodes.any (fun p => p.1 == name) then .error "Must provide a unique name"
  else if ¬(strat_kinds.contains kind) then .error "kind must be a translation strategy"
  else if x < -1 ∨ y < -1 then .error "port parameter must be at least 0"
  else
    .ok { s with nodes := s.nodes ++
      [(name, ⟨kind, nVar name "pressure", none, portStore x, portStore y⟩)] }

/-- Embedding of `Schematic.translate_chip` (lines 244-252). -/
def translate_chip (s : Schematic) (name : String) : Except String Schematic :=
  match lookupNode s name with
  | none => .error "KeyError: node not in graph"
  | some _ =>
    .ok (appendE s
      [.cge (nVar name "X") (.lit s.dim.1),
       .cge (nVar name "Y") (.lit s.dim.2.1),
       .cle (nVar name "X") (.lit s.dim.2.2.1),
       .cle (nVar name "Y") (.lit s.dim.2.2.2)])

/-- Embedding of `Schematic.translate_node` (lines 424-439).  When
`min_x` is truthy the source pins both coordinates, passing the stored
`min_y` straight to pysmt `Real`; a stored `False` marker there is the
Python integer 0, so it pins y to the literal 0. -/
def translate_node (s : Schematic) (name : String) : Except String Schematic :=
  match lookupNode s name with
  | none => .error "KeyError: node not in graph"
  | some a =>
    match a.min_x with
    | some v =>
      if v ≠ 0 then
        .ok (appendE s [.ceq (nVar name "X") (.lit v),
                        .ceq (nVar name "Y") (.lit (a.min_y.getD 0))])
      else
        .ok (appendE s [.cge (nVar name "X") (.lit 0), .cge (nVar name "Y") (.lit 0)])
    | none =>
      .ok (appendE s [.cge (nVar name "X") (.lit 0), .cge (nVar name "Y") (.lit 0)])

/-- The four fixed-or-bounded port constraints shared by
`translate_input` and `translate_output` (lines 263-292 and 307-337).
The density test of the source reads the symbol attribute (`if
named_node['density']:`), which is always truthy, so the density is
always pinned to `Real(stored min_density)` — where a stored `False`
marker again becomes the literal 0. -/
def port_attr_exprs (a : PMNode) (pa : PortAttrs) (name : String) : List Constraint :=
  fixedOr pa.min_pressure (fun v => .ceq a.pressure (.lit v))
    (.cge a.pressure (.lit 0))
  ++ fixedOr pa.min_flow_rate (fun v => .ceq (nVar name "flow_rate") (.lit v))
    (.cge (nVar name "flow_rate") (.lit 0))
  ++ fixedOr pa.min_viscosity (fun v => .ceq (nVar name "viscosity") (.lit v))
    (.cge (nVar name "viscosity") (.lit 0))
  ++ [.ceq (nVar name "density") (.lit (pa.min_density.getD 0))]

/-- Embedding of `Schematic.translate_input` (lines 254-292). -/
def translate_input (s : Schematic) (name : String) : Except String Schematic :=
  if (succs s name).length ≤ 0 then .error "Port must have 1 or more connections"
  else do
    let s1 ← translate_node s name
    match lookupNode s1 name with
    | none => .error "KeyError: node not in graph"
    | some a =>
      match a.portAttrs with
      | none => .error "KeyError: node has no port attributes"
      | some pa => .ok (appendE s1 (port_attr_exprs a pa name))

/-- Embedding of `Schematic.translate_output` (lines 298-337); its
connection check is `self.dg.size(name) <= 0`, and networkx `size`
called with a node name sums the default edge weight 1 over **all**
edges, so this tests the total edge count of the graph. -/
def translate_output (s : Schematic) (name : String) : Except String Schematic :=
  if s.edges.length ≤ 0 then .error "Port must have 1 or more connections"
  else do
    let s1 ← translate_node s name
    match lookupNode s1 name with
    | none => .error "KeyError: node not in graph"
    | some a =>
      match a.portAttrs with
      | none => .error "KeyError: node has no port attributes"
      | some pa => .ok (appendE s1 (port_attr_exprs a pa name))

/-- Embedding of `Schematic.calculate_port_flow_rate` (lines 746-766):
total outgoing cross section area (pysmt `Plus` of `length * width`)
times `(2 * pressure / density) ** 0.5`, reading the stored pressure of
the inlet node. -/
def calculate_port_flow_rate (s : Schematic) (port_in : String) (a : PMNode) : AExpr :=
  let areas := (succEdges s port_in).map
    (fun e => AExpr.mul (eVar e "length") (eVar e "width"))
  .mul (.plusL (.ofList areas))
       (.pow (.div (.mul (.lit 2) a.pressure) (nVar port_in "density"))
             (.lit (1/2)))

/-- Embedding of `Schematic.translate_channel` (lines 345-419).  The
resistance equality and lower bound are stated on the **stored**
resistance attribute, which is then overwritten with the resistance
formula before `channel_output_pressure` reads it again; finally the
downstream stored pressure is overwritten with the output pressure
term. -/
def translate_channel (s : Schematic) (e : String × String) : Except String Schematic :=
  match lookupEdge s e with
  | none => .error "KeyError: channel does not exist"
  | some a =>
    match lookupNode s e.1, lookupNode s e.2 with
    | some pin, some pout =>
      let rterm := resistance_term (eVar e "width") (eVar e "height")
        (eVar e "viscosity") (eVar e "length")
      let flow_rate := calculate_port_flow_rate s e.1 pin
      let output_pressure := AExpr.sub pin.pressure (.mul rterm (eVar e "flow_rate"))
      let exprs :=
        (match a.min_length with
         | some v =>
           if v ≠ 0 then [Constraint.cgt (eVar e "length") (.lit v)]
           else [Constraint.cgt (eVar e "length") (.lit 0)]
         | none => [Constraint.cgt (eVar e "length") (.lit 0)])
        ++ [pythagorean_length e,
            .ceq (eVar e "viscosity") (nVar e.1 "viscosity"),
            .ceq (nVar e.2 "viscosity") (nVar e.1 "viscosity"),
            .cge (eVar e "width") (.lit 0),
            .cge (eVar e "height") (.lit 0),
            resistance_validity e,
            .ceq a.resistance rterm,
            .cge a.resistance (.lit 0),
            .ceq (eVar e "flow_rate") flow_rate,
            .ceq (nVar e.1 "flow_rate") flow_rate,
            .ceq (nVar e.2 "flow_rate") flow_rate,
            .ceq pout.pressure output_pressure,
            .cge pout.pressure (.lit 0)]
      .ok (setNodePressure (setEdgeResistance (appendE s exprs) e rterm)
            e.2 output_pressure)
    | _, _ => .error "KeyError: endpoint node not in graph"

/-- The phase scan of `Schematic.translate_tjunc` (lines 473-497): a
loop over the phase attributes of **every** edge of the graph,
reassigning the continuous/dispersed names (last match wins) and
appending the width/height equalities as it goes.  The first argument is
the full edge dictionary (used for the channel-key lookups), the last
the remaining edges to scan. -/
def phases_scan (alledges : List ((String × String) × PMEdge))
    (junction : String) (outChan : String × String) :
    List ((String × String) × PMEdge) →
    Except String (Option String × Option String × List Constraint)
  | [] => .ok (none, none, [])
  | (e, a) :: rest =>
    if a.phase == "continuous" then
      match findEdge alledges (e.1, junction) with
      | none => .error "KeyError: continuous channel key not an edge"
      | some _ => do
        let (c, d, l) ← phases_scan alledges junction outChan rest
        let here := [Constraint.ceq (eVar (e.1, junction) "width") (eVar outChan "width"),
                     Constraint.ceq (eVar (e.1, junction) "height") (eVar outChan "height")]
        .ok (match c with | some x => some x | none => some e.1, d, here ++ l)
    else if a.phase == "dispersed" then
      match findEdge alledges (e.1, junction) with
      | none => .error "KeyError: dispersed channel key not an edge"
      | some _ => do
        let (c, d, l) ← phases_scan alledges junction outChan rest
        let here := [Constraint.ceq (eVar (e.1, junction) "height") (eVar outChan "height")]
        .ok (c, (match d with | some x => some x | none => some e.1), here ++ l)
    else if a.phase == "output" then
      phases_scan alledges junction outChan rest
    else
      .error "Invalid phase for T-junction"

/-- All expressions `Schematic.translate_tjunc` appends after the phase
scan (lines 499-589): the epsilon bound, the pressure equalities over
the **stored** pressure attributes of the four nodes, the viscosity
equality, the droplet volume equality, the straight-line constraint and
the three critical-angle constraints, for junction `name` with
continuous node `cn`, dispersed node `dn` and output node `on_`. -/
def tjunc_local_exprs (junction cont disp outp : PMNode)
    (cn dn name on_ : String) : List Constraint :=
  [.cge epsilonVar (.lit 0),
   .ceq junction.pressure cont.pressure,
   .ceq junction.pressure disp.pressure,
   .ceq junction.pressure outp.pressure,
   .ceq (nVar cn "viscosity") (nVar on_ "viscosity"),
   .ceq (eVar (name, on_) "Dvol")
     (calculate_droplet_volume
       (eVar (name, on_) "height")
       (eVar (name, on_) "width")
       (eVar (dn, name) "width")
       epsilonVar
       (nVar dn "flow_rate")
       (nVar cn "flow_rate")),
   channels_in_straight_line cn name on_,
   .cle .critCos (cosine_law_crit_angle cn name dn),
   .cle .critCos (cosine_law_crit_angle cn name on_),
   .cle .critCos (cosine_law_crit_angle on_ name dn)]

/-- Embedding of `Schematic.translate_tjunc` (lines 444-589) at the
default critical crossing angle 0.5.  Its connection check is again
`self.dg.size(name) != 3`: the total edge count of the graph. -/
def translate_tjunc (s : Schematic) (name : String) : Except String Schematic :=
  if s.edges.length ≠ 3 then .error "T-junction must have 3 connections"
  else do
    let s1 ← translate_node s name
    match lookupNode s1 name with
    | none => .error "KeyError: node not in graph"
    | some junction => do
      match succs s1 name with
      | [] => .error "IndexError: T-junction has no successor"
      | output_node_name :: _ => do
        let output_channel_name := (name, output_node_name)
        let scan ← phases_scan s1.edges name output_channel_name s1.edges
        match scan with
        | (some continuous_node_name, some dispersed_node_name, phase_exprs) =>
          match lookupNode s1 continuous_node_name, lookupNode s1 dispersed_node_name,
              lookupNode s1 output_node_name with
          | some cont, some disp, some outp =>
            .ok (appendE s1 (phase_exprs
              ++ tjunc_local_exprs junction cont disp outp
                   continuous_node_name dispersed_node_name name output_node_name))
          | _, _, _ => .error "KeyError: junction neighbor node not in graph"
        | _ => .error "TypeError: continuous or dispersed channel missing"

/-- Per-node dispatch of the driver:
`self.translation_strats[self.dg.nodes[name]['kind']](name)`.  The
`rectangle` table entry applied to a node name immediately raises inside
translate_channel (a node name is not an edge key). -/
def node_dispatch (s : Schematic) (name : String) : Except String Schematic :=
  match lookupNode s name with
  | none => .error "KeyError: node not in graph"
  | some a =>
    if a.kind == "input" then translate_input s name
    else if a.kind == "output" then translate_output s name
    else if a.kind == "t-junction" then translate_tjunc s name
    else .error "KeyError: channel strategy applied to a node"

/-- Node loop of the driver. -/
def run_nodes (s : Schematic) : List String → Except String Schematic
  | [] => .ok s
  | n :: rest => do
    let s1 ← node_dispatch s n
    run_nodes s1 rest

/-- Edge loop of the driver: dispatch on the stored shape, always
`rectangle`, hence translate_channel. -/
def run_edges (s : Schematic) : List (String × String) → Except String Schematic
  | [] => .ok s
  | e :: rest => do
    let s1 ←
      match lookupEdge s e with
      | none => .error "KeyError: edge not in graph"
      | some a =>
        if a.shape == "rectangle" then translate_channel s e
        else .error "KeyError: no strategy for shape"
    run_edges s1 rest

/-- Chip-bound loop of the driver. -/
def run_chip (s : Schematic) : List String → Except String Schematic
  | [] => .ok s
  | n :: rest => do
    let s1 ← translate_chip s n
    run_chip s1 rest

/-- Embedding of `Schematic.translate_schematic` (lines 768-782): the
node loop, then the edge loop, then the chip-bound loop, all over the
dictionaries as they stand when the loop starts. -/
def translate_schematic (s : Schematic) : Except String Schematic := do
  let s1 ← run_nodes s (s.nodes.map Prod.fst)
  let s2 ← run_edges s1 (s1.edges.map Prod.fst)
  run_chip s2 (s2.nodes.map Prod.fst)

end PyM

/-! ## Concrete instances -/

/-- Success test for a translate.py strategy result. -/
def okB : Except String (List Constraint) → Bool
  | .ok _ => true
  | .error _ => false

namespace Tr

/-- Number of channels incident to a node: in-edges plus out-edges. -/
def incident_channels (g : Graph) (n : String) : Nat :=
  (predEdges g n).length + (succEdges g n).length

/-- The T-junction schematic of tests/t_junction_test.py as the graph the
translate.py strategies walk: input ports `continuous` and `dispersed`
with fixed minimum pressure 1, output port `out`, junction `t_j` of kind
`tjunc` at fixed position (1, 0) (a fixed y of 0 is stored but falsy),
and the three phased channels. -/
def gT : Graph :=
  ⟨[("continuous", ⟨"input", some 1, none, none, none, none, none⟩),
    ("dispersed", ⟨"input", some 1, none, none, none, none, none⟩),
    ("out", ⟨"output", none, none, none, none, none, none⟩),
    ("t_j", ⟨"tjunc", none, none, none, none, some 1, some 0⟩)],
   [(("t_j", "out"), ⟨"channel", "output", none, none, none, none, none⟩),
    (("continuous", "t_j"), ⟨"channel", "continuous", none, none, none, none, none⟩),
    (("dispersed", "t_j"), ⟨"channel", "dispersed", none, none, none, none, none⟩)]⟩

/-- The same schematic with one extra channel between two further plain
nodes, so the junction still has exactly 3 incident channels but the
graph has 4 edges. -/
def g4 : Graph :=
  ⟨gT.nodes ++
    [("a", ⟨"node", none, none, none, none, none, none⟩),
     ("b", ⟨"node", none, none, none, none, none, none⟩)],
   gT.edges ++ [(("a", "b"), ⟨"channel", "none", none, none, none, none, none⟩)]⟩

/-- A graph with an isolated input port `i` whose flow rate is fixed,
and one unrelated channel between two plain nodes elsewhere. -/
def g7 : Graph :=
  ⟨[("i", ⟨"input", none, some 5, none, none, none, none⟩),
    ("a", ⟨"node", none, none, none, none, none, none⟩),
    ("b", ⟨"node", none, none, none, none, none, none⟩)],
   [(("a", "b"), ⟨"channel", "none", none, none, none, none, none⟩)]⟩

end Tr

/-! Auxiliary power-evaluation facts used to align `Real.rpow` at rational
exponents with the powers of the spec formulas. -/

theorem rpow_q_two (x : ℝ) : x ^ (((2 : ℚ) : ℝ)) = x ^ 2 := by
  rw [show (((2 : ℚ) : ℝ)) = ((2 : ℕ) : ℝ) by norm_num, Real.rpow_natCast]

theorem rpow_q_three (x : ℝ) : x ^ (((3 : ℚ) : ℝ)) = x ^ 3 := by
  rw [show (((3 : ℚ) : ℝ)) = ((3 : ℕ) : ℝ) by norm_num, Real.rpow_natCast]

theorem rpow_q_half (x : ℝ) : x ^ (((1/2 : ℚ) : ℝ)) = Real.sqrt x := by
  rw [show (((1/2 : ℚ) : ℝ)) = 1 / (2 : ℝ) by norm_num, ← Real.sqrt_eq_rpow]

theorem rpow_q_neg_one (x : ℝ) : x ^ (((-1 : ℚ) : ℝ)) = x⁻¹ := by
  rw [show (((-1 : ℚ) : ℝ)) = (-1 : ℝ) by norm_num, Real.rpow_neg_one]

/-- The droplet volume term built by the code denotes exactly the closed
form of the spec, for every assignment and all argument terms. -/
theorem evalE_calculate_droplet_volume (σ : Assignment)
    (h w wIn eps qD qC : AExpr) :
    evalE σ (calculate_droplet_volume h w wIn eps qD qC)
      = specDropletVolume (evalE σ h) (evalE σ w) (evalE σ wIn)
          (evalE σ eps) (evalE σ qD) (evalE σ qC) := by
  simp only [calculate_droplet_volume, specDropletVolume, evalE,
    rpow_q_two, rpow_q_half, rpow_q_neg_one]
  push_cast
  have hassoc : ∀ A B : ℝ, (2:ℝ) * (A * B) = 2 * A * B :=
    fun A B => (mul_assoc 2 A B).symm
  rw [hassoc]
  ring

/-- The resistance term built by the code denotes exactly the closed form
of the spec, for every assignment and all argument terms. -/
theorem evalE_resistance_term (σ : Assignment) (w h mu chL : AExpr) :
    evalE σ (resistance_term w h mu chL)
      = specResistance (evalE σ mu) (evalE σ chL) (evalE σ w) (evalE σ h) := by
  simp only [resistance_term, specResistance, evalE, rpow_q_three]
  push_cast
  ring



namespace Tr

/-- The constraint list of a successful strategy application, defaulting
to the empty list (never taken in the uses below). -/
def getL (r : Except String (List Constraint)) : List Constraint := r.toOption.getD []

/-- Node translation output on the test graph (used by witnesses). -/
def lT_node : List Constraint := getL (translate_node 12 gT "t_j")

/-- Output-port translation output on the test graph. -/
def lT_out : List Constraint := getL (translate_output 12 gT "out")

/-- T-junction translation output on the test graph. -/
def lT_tj : List Constraint := getL (translate_tjunc 12 gT "t_j")

/-- The phase-scan equalities on the test graph. -/
def peT : List Constraint :=
  match phases_scan gT.edges "t_j" ("t_j", "out") gT.edges with
  | .ok (_, _, l) => l
  | .error _ => []

/-- Channel graph for the resistance claims: two plain nodes and one
channel with user-fixed height 2 and width 1 (so height is not below
width). -/
def gC2 : Graph :=
  ⟨[("a", ⟨"node", none, none, none, none, none, none⟩),
    ("b", ⟨"node", none, none, none, none, none, none⟩)],
   [(("a", "b"), ⟨"channel", "none", none, some 1, some 2, none, none⟩)]⟩

/-- The attribute record of the channel of gC2. -/
def aC2 : EdgeAttrs := ⟨"channel", "none", none, some 1, some 2, none, none⟩

/-- Channel translation output on gC2. -/
def lC2 : List Constraint := getL (translate_channel 12 gC2 ("a", "b"))

end Tr

namespace PyM

/-- Success test for a pysmt constructor or translation result. -/
def okS : Except String Schematic → Bool
  | .ok _ => true
  | .error _ => false

/-- An empty schematic with the default chip bounds [0, 0, 10, 10]. -/
def s0 : Schematic := ⟨(0, 0, 10, 10), [], [], []⟩

/-- Extract the state of a successful construction or translation step,
defaulting to the empty schematic (never taken in the uses below). -/
def getS (r : Except String Schematic) : Schematic := r.toOption.getD s0

/-- Construction of the two-port schematic: input a to output b through
one channel, with fixed input pressure 1, everything else free. -/
def s9build : Except String Schematic := do
  let t1 ← port s0 "a" "input" 1 (-1) (-1) (-1) 1 (-1)
  let t2 ← port t1 "b" "output" (-1) (-1) (-1) (-1) 1 (-1)
  channel t2 "a" "b" (-1) (-1) (-1) (-1) "rectangle" "none"

/-- The constructed two-port schematic. -/
def s9 : Schematic := getS s9build

/-- State after the first driver run on s9. -/
def s9a : Schematic := getS (translate_schematic s9)

/-- State after the second driver run. -/
def s9b : Schematic := getS (translate_schematic s9a)

/-- Constraints emitted by the first run (the initial list is empty). -/
def run1_exprs : List Constraint := s9a.exprs

/-- Constraints emitted by the second run: the driver appends to the
stored list, so they are the tail the second run added. -/
def run2_exprs : List Constraint := s9b.exprs.drop s9a.exprs.length

/-- Construction for the fixed-at-zero probe: input port p with
min_pressure fixed to the literal 0, output port q, and a channel
p to q with min_width fixed to the literal 0. -/
def s4build : Except String Schematic := do
  let t1 ← port s0 "p" "input" 0 (-1) (-1) (-1) 1 (-1)
  let t2 ← port t1 "q" "output" (-1) (-1) (-1) (-1) 1 (-1)
  channel t2 "p" "q" (-1) 0 (-1) (-1) "rectangle" "none"

/-- The constructed fixed-at-zero schematic. -/
def s4 : Schematic := getS s4build

/-- State after translating the input port p of s4. -/
def s4t : Schematic := getS (translate_input s4 "p")

/-- Construction of the pysmt T-junction schematic: inputs c and d,
output o, junction j of kind t-junction at position (1, 2), channels
with output/continuous/dispersed phases. -/
def sTJbuild : Except String Schematic := do
  let t1 ← port s0 "c" "input" 1 (-1) (-1) (-1) 1 (-1)
  let t2 ← port t1 "d" "input" 1 (-1) (-1) (-1) 1 (-1)
  let t3 ← port t2 "o" "output" (-1) (-1) (-1) (-1) 1 (-1)
  let t4 ← node t3 "j" 1 2 "t-junction"
  let t5 ← channel t4 "j" "o" (-1) (-1) (-1) (-1) "rectangle" "output"
  let t6 ← channel t5 "c" "j" (-1) (-1) (-1) (-1) "rectangle" "continuous"
  channel t6 "d" "j" (-1) (-1) (-1) (-1) "rectangle" "dispersed"

/-- The constructed pysmt T-junction schematic. -/
def sTJ : Schematic := getS sTJbuild

/-- State after translating the T-junction j of sTJ. -/
def sTJt : Schematic := getS (translate_tjunc sTJ "j")

/-- The phase-scan equalities of sTJ. -/
def peTJ : List Constraint :=
  match phases_scan sTJ.edges "j" ("j", "o") sTJ.edges with
  | .ok (_, _, l) => l
  | .error _ => []

end PyM


/-! ## Structure lemmas -/

namespace Tr

theorem translate_node_ok_structure (fuel : Nat) (g : Graph) (name : String)
    (l : List Constraint) (h : translate_node fuel g name = .ok l) :
    ∃ a rec, lookupNode g name = some a ∧ l = node_local_exprs g name a ++ rec := by
  match fuel with
  | 0 => simp [translate_node] at h
  | f+1 =>
    rw [translate_node] at h
    cases hl : lookupNode g name with
    | none => rw [hl] at h; simp at h
    | some a =>
      rw [hl] at h
      cases hr : translate_succ_channels f g (succEdges g name) with
      | error e => rw [hr] at h; simp [Bind.bind, Except.bind] at h
      | ok rec =>
        rw [hr] at h
        simp only [Bind.bind, Except.bind, Except.ok.injEq] at h
        exact ⟨a, rec, rfl, h.symm⟩

theorem translate_channel_ok_structure (fuel : Nat) (g : Graph)
    (e : String × String) (l : List Constraint)
    (h : translate_channel fuel g e = .ok l) :
    ∃ a rec, lookupEdge g e = some a ∧ l = channel_head_exprs a e ++ rec := by
  match fuel with
  | 0 => simp [translate_channel] at h
  | f+1 =>
    rw [translate_channel] at h
    cases hl : lookupEdge g e with
    | none => rw [hl] at h; simp at h
    | some a =>
      rw [hl] at h
      cases hr : node_dispatch f g e.2 with
      | error m => rw [hr] at h; simp [Bind.bind, Except.bind] at h
      | ok rec =>
        rw [hr] at h
        simp only [Bind.bind, Except.bind, Except.ok.injEq] at h
        exact ⟨a, rec, rfl, h.symm⟩

theorem translate_tjunc_ok_structure (fuel : Nat) (g : Graph)
    (name on_ cn dn : String) (rest : List String) (pe l : List Constraint)
    (h : translate_tjunc fuel g name = .ok l)
    (hsucc : succs g name = on_ :: rest)
    (hscan : phases_scan g.edges name (name, on_) g.edges = .ok (some cn, some dn, pe)) :
    ∃ rec, l = pe ++ tjunc_local_exprs cn dn name on_ ++ rec := by
  match fuel with
  | 0 => simp [translate_tjunc] at h
  | f+1 =>
    rw [translate_tjunc] at h
    by_cases hsz : size g name ≠ 3
    · simp [hsz] at h
    · simp only [hsz, if_false] at h
      cases htn : translate_node f g name with
      | error m => rw [htn] at h; simp [Bind.bind, Except.bind] at h
      | ok nl =>
        rw [htn] at h
        simp only [Bind.bind, Except.bind] at h
        simp only [hsucc, hscan] at h
        cases hnd : node_dispatch f g on_ with
        | error m => rw [hnd] at h; simp [Bind.bind, Except.bind] at h
        | ok rec =>
          rw [hnd] at h
          simp only [Bind.bind, Except.bind, Except.ok.injEq] at h
          exact ⟨rec, h.symm⟩

end Tr

/-- Updating every entry of an association list at one key commutes with
`find?` at that key. -/
theorem find?_update_key {α β : Type} [BEq α] (l : List (α × β)) (k : α) (f : β → β) :
    ((l.map (fun q => if q.1 == k then (q.1, f q.2) else q)).find? (fun p => p.1 == k))
      = ((l.find? (fun p => p.1 == k)).map (fun q => (q.1, f q.2))) := by
  induction l with
  | nil => rfl
  | cons q t ih =>
    by_cases hq : (q.1 == k) = true
    · simp [List.find?, hq]
    · simp only [List.map_cons, List.find?]
      rw [if_neg hq]
      simp only [hq, Bool.false_eq_true, if_false]
      exact ih

namespace PyM

theorem appendE_nodes (s : Schematic) (l : List Constraint) :
    (appendE s l).nodes = s.nodes := rfl

theorem appendE_edges (s : Schematic) (l : List Constraint) :
    (appendE s l).edges = s.edges := rfl

theorem appendE_exprs (s : Schematic) (l : List Constraint) :
    (appendE s l).exprs = s.exprs ++ l := rfl

theorem lookupNode_appendE (s : Schematic) (l : List Constraint) (n : String) :
    lookupNode (appendE s l) n = lookupNode s n := rfl

theorem lookupEdge_appendE (s : Schematic) (l : List Constraint) (e : String × String) :
    lookupEdge (appendE s l) e = lookupEdge s e := rfl

theorem succs_appendE (s : Schematic) (l : List Constraint) (n : String) :
    succs (appendE s l) n = succs s n := rfl

/-- `translate_node` of the pysmt generation only appends expressions:
the graph dictionaries are untouched. -/
theorem translate_node_spec (s : Schematic) (name : String) (s' : Schematic)
    (h : translate_node s name = .ok s') : ∃ add, s' = appendE s add := by
  rw [translate_node] at h
  cases hl : lookupNode s name with
  | none => rw [hl] at h; simp at h
  | some a =>
    simp only [hl] at h
    cases hmx : a.min_x with
    | none =>
      simp only [hmx] at h
      exact ⟨_, (Except.ok.inj h).symm⟩
    | some v =>
      simp only [hmx] at h
      by_cases hv : v ≠ 0
      · rw [if_pos hv] at h
        exact ⟨_, (Except.ok.inj h).symm⟩
      · rw [if_neg hv] at h
        exact ⟨_, (Except.ok.inj h).symm⟩

/-- Structure of a successful pysmt T-junction translation: the final
expression list is the original one, the node-position expressions, the
phase-scan equalities and the junction-local expressions in order. -/
theorem pym_tjunc_ok_structure (s s' : Schematic)
    (name on_ cn dn : String) (rest : List String) (pe : List Constraint)
    (junction cont disp outp : PMNode)
    (h : translate_tjunc s name = .ok s')
    (hsucc : succs s name = on_ :: rest)
    (hscan : phases_scan s.edges name (name, on_) s.edges = .ok (some cn, some dn, pe))
    (hj : lookupNode s name = some junction)
    (hc : lookupNode s cn = some cont)
    (hd : lookupNode s dn = some disp)
    (ho : lookupNode s on_ = some outp) :
    ∃ add, s'.exprs
      = s.exprs ++ add ++ (pe ++ tjunc_local_exprs junction cont disp outp cn dn name on_) := by
  rw [translate_tjunc] at h
  by_cases hsz : s.edges.length ≠ 3
  · rw [if_pos hsz] at h; simp at h
  · rw [if_neg hsz] at h
    simp only [Bind.bind, Except.bind] at h
    cases htn : translate_node s name with
    | error m => rw [htn] at h; simp at h
    | ok s1 =>
      rw [htn] at h
      obtain ⟨add, rfl⟩ := translate_node_spec s name s1 htn
      simp only [lookupNode_appendE, succs_appendE, appendE_edges] at h
      simp only [hj, hsucc, hscan, hc, hd, ho, Except.bind] at h
      refine ⟨add, ?_⟩
      have hs' := (Except.ok.inj h)
      rw [← hs']
      simp [appendE_exprs, List.append_assoc]

end PyM

namespace PyM

theorem lookupEdge_setNodePressure (s : Schematic) (n : String) (p : AExpr)
    (e : String × String) :
    lookupEdge (setNodePressure s n p) e = lookupEdge s e := rfl

theorem lookupNode_setEdgeResistance (s : Schematic) (e : String × String)
    (r : AExpr) (n : String) :
    lookupNode (setEdgeResistance s e r) n = lookupNode s n := rfl

theorem lookupEdge_setEdgeResistance (s : Schematic) (e : String × String) (r : AExpr) :
    lookupEdge (setEdgeResistance s e r) e
      = (lookupEdge s e).map (fun a => { a with resistance := r }) := by
  simp only [lookupEdge, findEdge, setEdgeResistance]
  rw [find?_update_key s.edges e (fun b => { b with resistance := r })]
  cases s.edges.find? (fun p => p.1 == e) <;> rfl

theorem lookupNode_setNodePressure (s : Schematic) (n : String) (p : AExpr) :
    lookupNode (setNodePressure s n p) n
      = (lookupNode s n).map (fun a => { a with pressure := p }) := by
  simp only [lookupNode, setNodePressure]
  rw [find?_update_key s.nodes n (fun b => { b with pressure := p })]
  cases s.nodes.find? (fun q => q.1 == n) <;> rfl

/-- What a successful pysmt channel translation does to the stored
attributes: the channel resistance attribute is overwritten with the
resistance formula and the downstream node pressure attribute with the
output-pressure formula. -/
theorem translate_channel_mutation (s : Schematic) (e : String × String)
    (a : PMEdge) (pin pout : PMNode) (s' : Schematic)
    (ha : lookupEdge s e = some a)
    (hin : lookupNode s e.1 = some pin)
    (hout : lookupNode s e.2 = some pout)
    (h : translate_channel s e = .ok s') :
    lookupEdge s' e = some { a with resistance := (resistance_term (eVar e "width")
      (eVar e "height") (eVar e "viscosity") (eVar e "length")) }
    ∧ lookupNode s' e.2 = some { pout with pressure := (AExpr.sub pin.pressure
      (.mul (resistance_term (eVar e "width") (eVar e "height") (eVar e "viscosity")
        (eVar e "length")) (eVar e "flow_rate"))) } := by
  rw [translate_channel] at h
  simp only [ha, hin, hout] at h
  rw [← Except.ok.inj h]
  constructor
  · rw [show lookupEdge (setNodePressure (setEdgeResistance
        (appendE s _) e _) e.2 _) e = lookupEdge (setEdgeResistance
        (appendE s _) e _) e from rfl]
    rw [lookupEdge_setEdgeResistance]
    rw [lookupEdge_appendE, ha]
    rfl
  · rw [lookupNode_setNodePressure]
    rw [lookupNode_setEdgeResistance]
    rw [lookupNode_appendE, hout]
    rfl

end PyM

/-! ## Claim theorems -/

/-- C6: the claim states that a T-junction translation raises exactly
when the number of channels incident to the junction is not 3, so a
junction with exactly one output, one continuous and one dispersed
channel is accepted regardless of channels elsewhere.  The code instead
tests `dg.size(name)` — the total edge count of the whole graph — so in
`g4` the junction `t_j` has exactly 3 incident channels and still the
translation raises the 3-connections error. -/
theorem claim_C6 :
    Tr.incident_channels Tr.g4 "t_j" = 3
    ∧ Tr.translate_tjunc 12 Tr.g4 "t_j" = .error "T-junction must have 3 connections" :=
  ⟨by decide, by rfl⟩

/-- C7: the claim states that an input port with zero outgoing channels
always raises.  The connection check of the code is `dg.size(name) <= 0`
— the total edge count of the whole graph — so in `g7` the input port
`i` has zero outgoing channels, yet (its flow rate being user-fixed) its
translation returns a constraint list without raising. -/
theorem claim_C7 :
    (Tr.succEdges Tr.g7 "i").length = 0
    ∧ okB (Tr.translate_input 12 Tr.g7 "i") = true :=
  ⟨by rfl, by rfl⟩

/-- C8: every successful T-junction translation emits the
flow-conservation equality: the continuous channel flow rate plus the
dispersed channel flow rate equals the output channel flow rate. -/
theorem claim_C8 (fuel : Nat) (g : Tr.Graph) (name on_ cn dn : String)
    (rest : List String) (pe l : List Constraint)
    (h : Tr.translate_tjunc fuel g name = .ok l)
    (hsucc : Tr.succs g name = on_ :: rest)
    (hscan : Tr.phases_scan g.edges name (name, on_) g.edges
      = .ok (some cn, some dn, pe)) :
    Constraint.ceq (.add (eVar (cn, name) "flow_rate") (eVar (dn, name) "flow_rate"))
      (eVar (name, on_) "flow_rate") ∈ l := by
  obtain ⟨rec, rfl⟩ :=
    Tr.translate_tjunc_ok_structure fuel g name on_ cn dn rest pe l h hsucc hscan
  simp [Tr.tjunc_local_exprs, List.mem_append, List.mem_cons]

/-- C8 witness: on the test schematic gT the flow-conservation equality
is among the emitted constraints. -/
theorem claim_C8_witness :
    Constraint.ceq
      (.add (eVar ("continuous", "t_j") "flow_rate")
            (eVar ("dispersed", "t_j") "flow_rate"))
      (eVar ("t_j", "out") "flow_rate") ∈ Tr.lT_tj :=
  claim_C8 12 Tr.gT "t_j" "out" "continuous" "dispersed" [] Tr.peT Tr.lT_tj
    (by rfl) (by rfl) (by rfl)

/-- C10: every successful T-junction translation introduces the rounding
parameter as the variable with the fixed literal name epsilon
(`epsilonVar` carries no junction identifier, so all junctions of a
graph share the one variable), constrains it by epsilon at least 0, and
passes exactly this shared variable to the droplet-volume term of the
emitted droplet-volume equality. -/
theorem claim_C10 (fuel : Nat) (g : Tr.Graph) (name on_ cn dn : String)
    (rest : List String) (pe l : List Constraint)
    (h : Tr.translate_tjunc fuel g name = .ok l)
    (hsucc : Tr.succs g name = on_ :: rest)
    (hscan : Tr.phases_scan g.edges name (name, on_) g.edges
      = .ok (some cn, some dn, pe)) :
    Constraint.cge epsilonVar (.lit 0) ∈ l
    ∧ Constraint.ceq (eVar (name, on_) "Dvol")
        (calculate_droplet_volume (eVar (name, on_) "height") (eVar (name, on_) "width")
          (eVar (dn, name) "width") epsilonVar
          (nVar dn "flow_rate") (nVar cn "flow_rate")) ∈ l := by
  obtain ⟨rec, rfl⟩ :=
    Tr.translate_tjunc_ok_structure fuel g name on_ cn dn rest pe l h hsucc hscan
  constructor
  · simp [Tr.tjunc_local_exprs, List.mem_append, List.mem_cons]
  · simp [Tr.tjunc_local_exprs, List.mem_append, List.mem_cons]

/-- C10 witness: on the test schematic gT the epsilon bound and the
droplet-volume equality built on the shared epsilon variable are both
emitted. -/
theorem claim_C10_witness :
    Constraint.cge epsilonVar (.lit 0) ∈ Tr.lT_tj
    ∧ Constraint.ceq (eVar ("t_j", "out") "Dvol")
        (calculate_droplet_volume (eVar ("t_j", "out") "height")
          (eVar ("t_j", "out") "width") (eVar ("dispersed", "t_j") "width")
          epsilonVar (nVar "dispersed" "flow_rate")
          (nVar "continuous" "flow_rate")) ∈ Tr.lT_tj :=
  claim_C10 12 Tr.gT "t_j" "out" "continuous" "dispersed" [] Tr.peT Tr.lT_tj
    (by rfl) (by rfl) (by rfl)

/-- Structure of a successful output-port translation. -/
theorem Tr.translate_output_ok_structure (fuel : Nat) (g : Tr.Graph)
    (name : String) (l : List Constraint)
    (h : Tr.translate_output fuel g name = .ok l) :
    ∃ f a nodeL, fuel = f+1 ∧ Tr.lookupNode g name = some a
      ∧ Tr.translate_node f g name = .ok nodeL
      ∧ l = nodeL ++ (match a.min_flow_rate with
          | some v => if v ≠ 0 then [] else Tr.output_flow_combo g name
          | none => Tr.output_flow_combo g name) := by
  match fuel with
  | 0 => simp [Tr.translate_output] at h
  | f+1 =>
    rw [Tr.translate_output] at h
    by_cases h1 : Tr.size g name ≤ 0
    · rw [if_pos h1] at h; simp at h
    · rw [if_neg h1] at h
      by_cases h2 : (Tr.succs g name).length ≠ 0
      · rw [if_pos h2] at h; simp at h
      · rw [if_neg h2] at h
        simp only [Bind.bind, Except.bind] at h
        cases htn : Tr.translate_node f g name with
        | error m => rw [htn] at h; simp at h
        | ok nodeL =>
          rw [htn] at h
          cases hl : Tr.lookupNode g name with
          | none => simp only [hl] at h; simp at h
          | some a =>
            simp only [hl] at h
            exact ⟨f, a, nodeL, rfl, rfl, htn, (Except.ok.inj h).symm⟩

/-- C3: node translation equates the node pressure to the single inbound
output pressure when there is exactly one predecessor, and to the
`logical_and` of the consecutive pairwise sums of the inbound output
pressures (not to their arithmetic sum) when there are two or more;
output-port flow rates (when not user-fixed) are combined the same
way over the incoming channel flow variables. -/
theorem claim_C3 :
    (∀ (fuel : Nat) (g : Tr.Graph) (name : String) (l : List Constraint),
      Tr.translate_node fuel g name = .ok l →
      (∀ p, Tr.preds g name = [p] →
        Constraint.ceq (nVar name "pressure") (channel_output_pressure (p, name)) ∈ l)
      ∧ (2 ≤ (Tr.preds g name).length →
        Constraint.ceq (nVar name "pressure")
          (.conjT (.ofList (pairwise_sums ((Tr.preds g name).map
            (fun p => channel_output_pressure (p, name)))))) ∈ l))
    ∧ (∀ (fuel : Nat) (g : Tr.Graph) (name : String) (l : List Constraint)
        (a : Tr.NodeAttrs),
      Tr.translate_output fuel g name = .ok l →
      Tr.lookupNode g name = some a → a.min_flow_rate = none →
      (∀ e, Tr.predEdges g name = [e] →
        Constraint.ceq (nVar name "flow_rate") (eVar e "flow_rate") ∈ l)
      ∧ (2 ≤ (Tr.predEdges g name).length →
        Constraint.ceq (nVar name "flow_rate")
          (.conjT (.ofList (pairwise_sums ((Tr.predEdges g name).map
            (fun e => eVar e "flow_rate"))))) ∈ l)) := by
  constructor
  · intro fuel g name l h
    obtain ⟨a, rec, hl, rfl⟩ := Tr.translate_node_ok_structure fuel g name l h
    constructor
    · intro p hp
      simp [Tr.node_local_exprs, Tr.node_pressure_combo, hp,
        List.mem_append, List.mem_cons]
    · intro hlen
      match hp : Tr.preds g name with
      | [] => rw [hp] at hlen; simp at hlen
      | [p] => rw [hp] at hlen; simp at hlen
      | p1 :: p2 :: t =>
        simp [Tr.node_local_exprs, Tr.node_pressure_combo, hp,
          List.mem_append, List.mem_cons]
  · intro fuel g name l a h hl hflow
    obtain ⟨f, a2, nodeL, rfl, hl2, htn, rfl⟩ :=
      Tr.translate_output_ok_structure fuel g name l h
    rw [hl] at hl2
    obtain rfl : a = a2 := by exact (Option.some.inj hl2)
    rw [hflow]
    constructor
    · intro e hp
      simp [Tr.output_flow_combo, hp, List.mem_append, List.mem_cons]
    · intro hlen
      match hp : Tr.predEdges g name with
      | [] => rw [hp] at hlen; simp at hlen
      | [e] => rw [hp] at hlen; simp at hlen
      | e1 :: e2 :: t =>
        simp [Tr.output_flow_combo, hp, List.mem_append, List.mem_cons]

/-- C3 witness: on the test schematic the junction (two predecessors)
gets its pressure equated to the conjunction of pairwise sums, and the
output port (one predecessor) gets the direct flow equality. -/
theorem claim_C3_witness :
    Constraint.ceq (nVar "t_j" "pressure")
      (.conjT (.ofList (pairwise_sums ((Tr.preds Tr.gT "t_j").map
        (fun p => channel_output_pressure (p, "t_j")))))) ∈ Tr.lT_node
    ∧ Constraint.ceq (nVar "out" "flow_rate")
        (eVar ("t_j", "out") "flow_rate") ∈ Tr.lT_out :=
  ⟨(claim_C3.1 12 Tr.gT "t_j" Tr.lT_node (by rfl)).2 (by decide),
   (claim_C3.2 12 Tr.gT "out" Tr.lT_out
      ⟨"output", none, none, none, none, none, none⟩
      (by rfl) (by rfl) (by rfl)).1 ("t_j", "out") (by rfl)⟩

/-- C2: every successful channel translation emits the precondition
height below width together with the equality of the channel resistance
variable to `12*mu*L / (w*h^3*(1 - 0.63*h/w))` (the emitted term denotes
exactly that closed form); and for a channel whose height and width are
both user-fixed (to nonzero values, the only fixed states the
constructors store) with height at least width, the emitted constraint
set is unsatisfiable. -/
theorem claim_C2 :
    (∀ (fuel : Nat) (g : Tr.Graph) (e : String × String) (l : List Constraint)
        (a : Tr.EdgeAttrs),
      Tr.translate_channel fuel g e = .ok l → Tr.lookupEdge g e = some a →
      resistance_validity e ∈ l
      ∧ Constraint.ceq (eVar e "res")
          (resistance_term (eVar e "width") (eVar e "height")
            (eVar e "viscosity") (eVar e "length")) ∈ l)
    ∧ (∀ (σ : Assignment) (w h mu chL : AExpr),
      evalE σ (resistance_term w h mu chL)
        = specResistance (evalE σ mu) (evalE σ chL) (evalE σ w) (evalE σ h))
    ∧ (∀ (fuel : Nat) (g : Tr.Graph) (e : String × String) (l : List Constraint)
        (a : Tr.EdgeAttrs) (h0 w0 : ℚ),
      Tr.translate_channel fuel g e = .ok l → Tr.lookupEdge g e = some a →
      a.min_height = some h0 → a.min_width = some w0 →
      h0 ≠ 0 → w0 ≠ 0 → w0 ≤ h0 →
      ¬ Satisfiable l) := by
  refine ⟨?_, evalE_resistance_term, ?_⟩
  · intro fuel g e l a h ha
    obtain ⟨a2, rec, ha2, rfl⟩ := Tr.translate_channel_ok_structure fuel g e l h
    rw [ha] at ha2
    obtain rfl : a = a2 := Option.some.inj ha2
    constructor
    · simp [Tr.channel_head_exprs, List.mem_append, List.mem_cons]
    · simp [Tr.channel_head_exprs, List.mem_append, List.mem_cons]
  · intro fuel g e l a h0 w0 h ha hh hw hh0 hw0 hge hSat
    obtain ⟨a2, rec, ha2, rfl⟩ := Tr.translate_channel_ok_structure fuel g e l h
    rw [ha] at ha2
    obtain rfl : a = a2 := Option.some.inj ha2
    obtain ⟨σ, hσ⟩ := hSat
    have hH : satC σ (Constraint.ceq (eVar e "height") (.lit h0)) := by
      refine hσ _ ?_
      simp [Tr.channel_head_exprs, fixedOr, hh, hh0, List.mem_append, List.mem_cons]
    have hW : satC σ (Constraint.ceq (eVar e "width") (.lit w0)) := by
      refine hσ _ ?_
      simp [Tr.channel_head_exprs, fixedOr, hw, hw0, List.mem_append, List.mem_cons]
    have hLT : satC σ (resistance_validity e) := by
      refine hσ _ ?_
      simp [Tr.channel_head_exprs, List.mem_append, List.mem_cons]
    simp only [satC, resistance_validity, eVar, evalE] at hH hW hLT
    rw [hH, hW] at hLT
    have : h0 < w0 := by exact_mod_cast hLT
    exact absurd this (not_lt.mpr hge)

/-- C2 witness: the channel of gC2 is fixed at height 2 and width 1; its
translation emits the height-below-width precondition and the resulting
constraint set is unsatisfiable. -/
theorem claim_C2_witness :
    resistance_validity ("a", "b") ∈ Tr.lC2 ∧ ¬ Satisfiable Tr.lC2 :=
  ⟨(claim_C2.1 12 Tr.gC2 ("a", "b") Tr.lC2 Tr.aC2 (by rfl) (by rfl)).1,
   claim_C2.2.2 12 Tr.gC2 ("a", "b") Tr.lC2 Tr.aC2 2 1 (by rfl) (by rfl)
     (by rfl) (by rfl) (by decide) (by decide) (by decide)⟩

/-- C1: every successful T-junction translation of the pysmt generation
emits the droplet-volume equality between the output channel
droplet-volume variable and the term `calculate_droplet_volume` applied
to the output channel height and width, the dispersed channel width,
epsilon, and the dispersed and continuous node flow rates; and that term
denotes, under every assignment, exactly the closed form of the spec:
`h*w^2*(v_fill + alpha*(qD/qC))` with `v_fill = 3*pi/8 -
(pi/2)*(1-pi/4)*(h/w)`, `r_pinch = w + (wIn - (hw_parallel - eps)) +
sqrt(2*(wIn-hw_parallel)*(w-hw_parallel))`, `r_fill = w`, `alpha =
(1-pi/4)/(1-0.1) * ((r_pinch/w)^2 - (r_fill/w)^2 +
(pi/4)*(r_pinch/w - r_fill/w)*(h/w))` and the gutter constant 0.1. -/
theorem claim_C1 :
    (∀ (s s' : PyM.Schematic) (name on_ cn dn : String) (rest : List String)
        (pe : List Constraint) (junction cont disp outp : PyM.PMNode),
      PyM.translate_tjunc s name = .ok s' →
      PyM.succs s name = on_ :: rest →
      PyM.phases_scan s.edges name (name, on_) s.edges = .ok (some cn, some dn, pe) →
      PyM.lookupNode s name = some junction →
      PyM.lookupNode s cn = some cont →
      PyM.lookupNode s dn = some disp →
      PyM.lookupNode s on_ = some outp →
      Constraint.ceq (eVar (name, on_) "Dvol")
        (calculate_droplet_volume (eVar (name, on_) "height") (eVar (name, on_) "width")
          (eVar (dn, name) "width") epsilonVar
          (nVar dn "flow_rate") (nVar cn "flow_rate")) ∈ s'.exprs)
    ∧ (∀ (σ : Assignment) (h w wIn eps qD qC : AExpr),
      evalE σ (calculate_droplet_volume h w wIn eps qD qC)
        = specDropletVolume (evalE σ h) (evalE σ w) (evalE σ wIn)
            (evalE σ eps) (evalE σ qD) (evalE σ qC)) := by
  refine ⟨?_, evalE_calculate_droplet_volume⟩
  intro s s' name on_ cn dn rest pe junction cont disp outp h hsucc hscan hj hc hd ho
  obtain ⟨add, he⟩ := PyM.pym_tjunc_ok_structure s s' name on_ cn dn rest pe
    junction cont disp outp h hsucc hscan hj hc hd ho
  rw [he]
  simp [PyM.tjunc_local_exprs, List.mem_append, List.mem_cons]

/-- C1 witness: on the pysmt T-junction schematic sTJ the droplet-volume
equality over the three channels is among the emitted expressions. -/
theorem claim_C1_witness :
    Constraint.ceq (eVar ("j", "o") "Dvol")
      (calculate_droplet_volume (eVar ("j", "o") "height") (eVar ("j", "o") "width")
        (eVar ("d", "j") "width") epsilonVar
        (nVar "d" "flow_rate") (nVar "c" "flow_rate")) ∈ PyM.sTJt.exprs :=
  claim_C1.1 PyM.sTJ PyM.sTJt "j" "o" "c" "d" [] PyM.peTJ
    ⟨"t-junction", nVar "j" "pressure", none, some 1, some 2⟩
    ⟨"input", nVar "c" "pressure", some ⟨none, some 1, none, some 1⟩, none, none⟩
    ⟨"input", nVar "d" "pressure", some ⟨none, some 1, none, some 1⟩, none, none⟩
    ⟨"output", nVar "o" "pressure", some ⟨none, none, none, some 1⟩, none, none⟩
    (by rfl) (by rfl) (by rfl) (by rfl) (by rfl) (by rfl) (by rfl)

/-- C4 (amended): fixed-at-zero is coerced into the unset state rather
than kept distinct: the channel constructor stores a bound of literal 0
as the unset marker, and the port translation truthiness test treats a
stored 0 exactly like unset — the emitted pressure constraints for
min_pressure fixed at 0 are identical to those for min_pressure unset
(the free lower bound), and the pinned equality is emitted only for
nonzero fixed values. -/
theorem claim_C4 :
    PyM.chanStore 0 = none
    ∧ (∀ (name : String) (a : PyM.PMNode) (pa : PyM.PortAttrs),
      PyM.port_attr_exprs a { pa with min_pressure := some 0 } name
        = PyM.port_attr_exprs a { pa with min_pressure := none } name)
    ∧ (∀ (name : String) (a : PyM.PMNode) (pa : PyM.PortAttrs) (v : ℚ),
      v ≠ 0 → pa.min_pressure = some v →
      Constraint.ceq a.pressure (.lit v) ∈ PyM.port_attr_exprs a pa name) := by
  refine ⟨by decide, ?_, ?_⟩
  · intro name a pa
    simp [PyM.port_attr_exprs, fixedOr]
  · intro name a pa v hv hmp
    simp [PyM.port_attr_exprs, fixedOr, hmp, hv, List.mem_append, List.mem_cons]

/-- C4 witness: a fixed nonzero pressure of 7 is pinned by an equality. -/
theorem claim_C4_witness :
    Constraint.ceq (nVar "x" "pressure") (.lit 7)
      ∈ PyM.port_attr_exprs ⟨"input", nVar "x" "pressure", none, none, none⟩
          ⟨none, some 7, none, none⟩ "x" :=
  claim_C4.2.2 "x" ⟨"input", nVar "x" "pressure", none, none, none⟩
    ⟨none, some 7, none, none⟩ 7 (by decide) (by rfl)

/-- C4 counterexample: in schematic s4 the channel was constructed with
min_width fixed to the literal 0 and the constructor stored the unset
marker instead; the input port p was constructed with min_pressure fixed
to the literal 0, and translating it emits the free lower bound on the
pressure variable and not the pinned equality to 0 that the claim
requires. -/
theorem claim_C4_counterexample :
    (PyM.lookupEdge PyM.s4 ("p", "q")).map PyM.PMEdge.min_width = some none
    ∧ Constraint.cge (nVar "p" "pressure") (.lit 0) ∈ PyM.s4t.exprs
    ∧ Constraint.ceq (nVar "p" "pressure") (.lit 0) ∉ PyM.s4t.exprs :=
  ⟨by rfl, by decide, by decide⟩

/-- C5: the claim says passing any negative value for a numeric fixed
attribute fails construction with the invalid-bound error.  The check of
the source is `< -1`, not `< 0`, so the negative bound -1/2 is accepted:
the port constructor succeeds and stores min_pressure = -1/2. -/
theorem claim_C5 :
    PyM.okS (PyM.port PyM.s0 "p" "input" (-(1/2)) (-1) (-1) (-1) 1 (-1)) = true
    ∧ (PyM.lookupNode
        (PyM.getS (PyM.port PyM.s0 "p" "input" (-(1/2)) (-1) (-1) (-1) 1 (-1))) "p").map
          PyM.PMNode.portAttrs
      = some (some ⟨none, some (-(1/2)), none, some 1⟩) := by
  have hred : PyM.port PyM.s0 "p" "input" (-(1/2)) (-1) (-1) (-1) 1 (-1)
      = .ok ⟨(0, 0, 10, 10), [], [("p",
          ⟨"input", nVar "p" "pressure",
           some ⟨PyM.portStore (-1), PyM.portStore (-(1/2)),
                 PyM.portStore (-1), PyM.portStore 1⟩,
           PyM.portStore (-1), PyM.portStore (-1)⟩)], []⟩ := by
    rw [PyM.port]
    rw [if_neg (by decide), if_neg (by decide), if_neg (by norm_num)]
    rfl
  have hstore : PyM.portStore (-(1/2)) = some (-(1/2)) := by
    rw [PyM.portStore, if_neg (by norm_num)]
  constructor
  · rw [hred]; rfl
  · rw [hred]
    show some ((⟨"input", nVar "p" "pressure",
        some ⟨PyM.portStore (-1), PyM.portStore (-(1/2)),
              PyM.portStore (-1), PyM.portStore 1⟩,
        PyM.portStore (-1), PyM.portStore (-1)⟩ : PyM.PMNode).portAttrs) = _
    rw [hstore]
    rw [show PyM.portStore (-1) = none from by rw [PyM.portStore, if_pos rfl]]
    rw [show PyM.portStore 1 = some 1 from by rw [PyM.portStore, if_neg (by norm_num)]]

/-- C9 (amended): translation is not idempotent because it rewrites the
stored graph attributes it reads: a successful channel translation
overwrites the stored channel resistance attribute with the resistance
formula term and the stored downstream node pressure attribute with the
output-pressure term, so a second driver run builds its constraints over
those formulas instead of the construction-time variables. -/
theorem claim_C9 (s : PyM.Schematic) (e : String × String)
    (a : PyM.PMEdge) (pin pout : PyM.PMNode) (s' : PyM.Schematic)
    (ha : PyM.lookupEdge s e = some a)
    (hin : PyM.lookupNode s e.1 = some pin)
    (hout : PyM.lookupNode s e.2 = some pout)
    (h : PyM.translate_channel s e = .ok s') :
    PyM.lookupEdge s' e = some { a with resistance := (resistance_term (eVar e "width")
      (eVar e "height") (eVar e "viscosity") (eVar e "length")) }
    ∧ PyM.lookupNode s' e.2 = some { pout with pressure := (AExpr.sub pin.pressure
      (.mul (resistance_term (eVar e "width") (eVar e "height") (eVar e "viscosity")
        (eVar e "length")) (eVar e "flow_rate"))) } :=
  PyM.translate_channel_mutation s e a pin pout s' ha hin hout h

/-- C9 witness: translating the channel of the two-port schematic
rewrites its stored resistance and the stored pressure of b. -/
theorem claim_C9_witness :
    PyM.lookupEdge (PyM.getS (PyM.translate_channel PyM.s9 ("a", "b"))) ("a", "b")
      = some ⟨"rectangle", "none",
          resistance_term (eVar ("a", "b") "width") (eVar ("a", "b") "height")
            (eVar ("a", "b") "viscosity") (eVar ("a", "b") "length"),
          some (-1), some (-1), some (-1), some (-1)⟩
    ∧ PyM.lookupNode (PyM.getS (PyM.translate_channel PyM.s9 ("a", "b"))) "b"
      = some ⟨"output", AExpr.sub (nVar "a" "pressure")
          (.mul (resistance_term (eVar ("a", "b") "width") (eVar ("a", "b") "height")
            (eVar ("a", "b") "viscosity") (eVar ("a", "b") "length"))
            (eVar ("a", "b") "flow_rate")),
          some ⟨none, none, none, some 1⟩, none, none⟩ :=
  claim_C9 PyM.s9 ("a", "b")
    ⟨"rectangle", "none", eVar ("a", "b") "res",
      some (-1), some (-1), some (-1), some (-1)⟩
    ⟨"input", nVar "a" "pressure", some ⟨none, some 1, none, some 1⟩, none, none⟩
    ⟨"output", nVar "b" "pressure", some ⟨none, none, none, some 1⟩, none, none⟩
    (PyM.getS (PyM.translate_channel PyM.s9 ("a", "b")))
    (by rfl) (by rfl) (by rfl) (by rfl)

/-- C9 counterexample: both driver runs on the unchanged two-port
schematic succeed, yet the constraint list of the second run is not
structurally identical to that of the first. -/
theorem claim_C9_counterexample :
    PyM.okS (PyM.translate_schematic PyM.s9) = true
    ∧ PyM.okS (PyM.translate_schematic PyM.s9a) = true
    ∧ PyM.run1_exprs ≠ PyM.run2_exprs :=
  ⟨by rfl, by rfl, by decide⟩
